import Mathlib

/-!
Verification of the MobSF-MCP adapter: a model-context-protocol server
exposing a MobSF security-scanning backend's REST API as callable tools.
The development shallowly embeds the tool handlers of `src/index.ts` and
the request-building / error-wrapping logic of the `MobSFClient` class,
and proves the specified properties about them.
-/

set_option maxHeartbeats 1000000

/-- JSON values as produced by the platform JSON parser. Numbers are
modelled as integers (no claim depends on fractional values). Object
fields keep their insertion order, matching JavaScript objects. -/
inductive Json where
  | null : Json
  | bool (b : Bool) : Json
  | num (n : Int) : Json
  | str (s : String) : Json
  | arr (items : List Json) : Json
  | obj (fields : List (String × Json)) : Json

/-- JavaScript truthiness of a JSON value: null, false, 0 and the empty
string are falsy; arrays and objects are always truthy. -/
def Json.truthy : Json → Bool
  | .null => false
  | .bool b => b
  | .num n => n != 0
  | .str s => s != ""
  | .arr _ => true
  | .obj _ => true

/-- Truthiness of a possibly-undefined JavaScript value (`none` models
`undefined`, which is falsy). -/
def jsTruthyOpt : Option Json → Bool
  | none => false
  | some v => v.truthy

/-- Property access `data[key]` on a parsed JSON value, yielding
`none` for `undefined`. Access on non-object values is modelled as
`undefined`; theorems about the handlers only consider object reports. -/
def Json.getField : Json → String → Option Json
  | .obj kvs, k => List.lookup k kvs
  | _, _ => none

/-- `Object.keys` on a parsed JSON object: its field names in insertion
order. Theorems about the handlers only consider object reports. -/
def Json.objKeys : Json → List String
  | .obj kvs => kvs.map Prod.fst
  | _ => []

/-- Whether a JSON value is a string (the `typeof result === "string"` test). -/
def Json.isStr : Json → Bool
  | .str _ => true
  | _ => false

/-- Lower-case hexadecimal digit, as used by JSON.stringify unicode escapes. -/
def hexDigit (n : Nat) : String :=
  if n < 10 then toString n else String.singleton (Char.ofNat (87 + n))

/-- Escape of one character inside a JSON string literal, following
JSON.stringify: quote, backslash, the short escape sequences, and
\u escapes for remaining control characters. -/
def escapeChar (c : Char) : String :=
  if c = '"' then "\\\""
  else if c = '\\' then "\\\\"
  else if c = '\n' then "\\n"
  else if c = '\r' then "\\r"
  else if c = '\t' then "\\t"
  else if c.toNat = 8 then "\\b"
  else if c.toNat = 12 then "\\f"
  else if c.toNat < 32 then "\\u00" ++ hexDigit (c.toNat / 16) ++ hexDigit (c.toNat % 16)
  else String.singleton c

/-- A JSON string literal: surrounding quotes plus escaping. -/
def quoteString (s : String) : String :=
  "\"" ++ String.join (s.data.map escapeChar) ++ "\""

/-- Indentation produced by `JSON.stringify(_, null, 2)` at nesting depth d. -/
def indentStr (d : Nat) : String :=
  String.join (List.replicate d "  ")

mutual

/-- `JSON.stringify(v, null, 2)` at nesting depth d: two-space indented
serialization, empty arrays and objects printed inline. -/
def stringifyVal : Nat → Json → String
  | _, .null => "null"
  | _, .bool true => "true"
  | _, .bool false => "false"
  | _, .num n => toString n
  | _, .str s => quoteString s
  | _, .arr [] => "[]"
  | d, .arr (x :: xs) =>
      "[\n" ++ stringifyItems (d + 1) (x :: xs) ++ "\n" ++ indentStr d ++ "]"
  | _, .obj [] => "\x7b\x7d"
  | d, .obj (f :: fs) =>
      "\x7b\n" ++ stringifyFields (d + 1) (f :: fs) ++ "\n" ++ indentStr d ++ "\x7d"

/-- Comma-and-newline separated array elements, each on its own indented line. -/
def stringifyItems : Nat → List Json → String
  | _, [] => ""
  | d, [x] => indentStr d ++ stringifyVal d x
  | d, x :: y :: xs =>
      indentStr d ++ stringifyVal d x ++ ",\n" ++ stringifyItems d (y :: xs)

/-- Comma-and-newline separated object fields, each `"key": value` on its
own indented line. -/
def stringifyFields : Nat → List (String × Json) → String
  | _, [] => ""
  | d, [f] => indentStr d ++ quoteString f.1 ++ ": " ++ stringifyVal d f.2
  | d, f :: g :: fs =>
      indentStr d ++ quoteString f.1 ++ ": " ++ stringifyVal d f.2 ++ ",\n"
        ++ stringifyFields d (g :: fs)

end

/-- The single-quote character, used in the section-not-found message. -/
def apos : String := "\x27"

/-- The literal text produced by getJsonReportSection for a missing section. -/
def notFoundMessage (sec : String) : String :=
  "Section " ++ apos ++ sec ++ apos ++ " not found in report."

/-- A thrown JavaScript exception, as relevant to the handlers: an `Error`
with a message (what `new Error(...)` and axios produce), or a TypeError
from applying `.map` to a non-array value. -/
inductive JsErr where
  | error (message : String) : JsErr
  | typeError : JsErr
deriving DecidableEq

/-- One item of an MCP tool-result content array: a text item (whose text
field may be the undefined value, modelled as `none`), or an embedded
binary resource with a URI, a base64 blob and a MIME type. -/
inductive Content where
  | text (t : Option String) : Content
  | resource (uri : String) (blob : String) (mimeType : String) : Content
deriving DecidableEq

/-- The envelope a tool handler resolves with. -/
structure ToolResult where
  content : List Content
deriving DecidableEq

/-- `typeof result === "string" ? JSON.parse(result) : result`: the
string-to-structure step shared by the report-derived handlers. The
platform JSON parser is an external primitive, passed in as `parse`. -/
def jsData (parse : String → Json) : Json → Json
  | .str s => parse s
  | v => v

/-- The body attached to an axios request: a URL-encoded form (the string
produced by URLSearchParams over the listed fields) or a multipart
form-data body streaming one file field. -/
inductive Body where
  | urlencoded (fields : List (String × String)) : Body
  | multipart (field : String) (filePath : String) : Body
deriving DecidableEq

/-- The pure request description each MobSFClient method builds (the
relevant fields of an AxiosRequestConfig). -/
structure RequestConfig where
  url : String
  method : String
  headers : List (String × String)
  data : Option Body := none
  params : Option (List (String × Int)) := none
  responseType : Option String := none
deriving DecidableEq

/-- Lookup of a header in a built header object. Later entries override
earlier ones, matching JavaScript object-spread semantics; keys are
case-sensitive as in a JavaScript object literal. -/
def hdrGet (hs : List (String × String)) (k : String) : Option String :=
  List.lookup k hs.reverse

/-- Models `formData.getHeaders()` of the form-data library: a single
lower-case content-type header carrying the multipart boundary chosen by
the library. -/
def formDataGetHeaders (boundary : String) : List (String × String) :=
  [("content-type", "multipart/form-data; boundary=" ++ boundary)]

/-- The MobSF backend client: stores the base URL and API key given at
construction. -/
structure MobSFClient where
  baseUrl : String
  apiKey : String

/-- The constructor: strips a single trailing slash from the base URL
(`baseUrl.endsWith('/') ? baseUrl.slice(0, -1) : baseUrl`). -/
def createMobSFClient (baseUrl apiKey : String) : MobSFClient :=
  { baseUrl := if baseUrl.endsWith "/" then baseUrl.dropRight 1 else baseUrl
    apiKey := apiKey }

/-- `createRequestConfig`: default headers (both auth headers plus a JSON
content type) merged with any extra headers, extras overriding. -/
def MobSFClient.createRequestConfig (c : MobSFClient) (path : String)
    (method : String) (data : Option Body)
    (headers : List (String × String))
    (params : Option (List (String × Int))) : RequestConfig :=
  { url := c.baseUrl ++ path
    method := method
    headers :=
      [("Authorization", c.apiKey), ("X-Mobsf-Api-Key", c.apiKey),
       ("Content-Type", "application/json")] ++ headers
    data := data
    params := params }

/-- Request built by `uploadFile`: multipart body, headers taken from the
form-data object (so the boundary, chosen by the library, is a parameter). -/
def MobSFClient.uploadFileConfig (c : MobSFClient) (filePath boundary : String) :
    RequestConfig :=
  { url := c.baseUrl ++ "/api/v1/upload"
    method := "POST"
    headers :=
      [("Authorization", c.apiKey), ("X-Mobsf-Api-Key", c.apiKey)]
        ++ formDataGetHeaders boundary
    data := some (.multipart "file" filePath) }

/-- Request built by `getScanLogs`. -/
def MobSFClient.getScanLogsConfig (c : MobSFClient) (hash : String) : RequestConfig :=
  { url := c.baseUrl ++ "/api/v1/scan_logs"
    method := "POST"
    headers :=
      [("Authorization", c.apiKey), ("X-Mobsf-Api-Key", c.apiKey),
       ("Content-Type", "application/x-www-form-urlencoded")]
    data := some (.urlencoded [("hash", hash)]) }

/-- Request built by `generateJsonReport`. -/
def MobSFClient.generateJsonReportConfig (c : MobSFClient) (hash : String) :
    RequestConfig :=
  { url := c.baseUrl ++ "/api/v1/report_json"
    method := "POST"
    headers :=
      [("Authorization", c.apiKey), ("X-Mobsf-Api-Key", c.apiKey),
       ("Content-Type", "application/x-www-form-urlencoded")]
    data := some (.urlencoded [("hash", hash)]) }

/-- Request built by `getRecentScans`, via `createRequestConfig` with both
auth headers passed again as extras and the pagination query parameters. -/
def MobSFClient.getRecentScansConfig (c : MobSFClient) (page pageSize : Int) :
    RequestConfig :=
  c.createRequestConfig "/api/v1/scans" "GET" none
    [("Authorization", c.apiKey), ("X-Mobsf-Api-Key", c.apiKey)]
    (some [("page", page), ("page_size", pageSize)])

/-- Request built by `searchScanResult`. -/
def MobSFClient.searchScanResultConfig (c : MobSFClient) (query : String) :
    RequestConfig :=
  { url := c.baseUrl ++ "/api/v1/search"
    method := "POST"
    headers :=
      [("Authorization", c.apiKey), ("X-Mobsf-Api-Key", c.apiKey),
       ("Content-Type", "application/x-www-form-urlencoded")]
    data := some (.urlencoded [("query", query)]) }

/-- Request built by `deleteScan`. -/
def MobSFClient.deleteScanConfig (c : MobSFClient) (hash : String) : RequestConfig :=
  { url := c.baseUrl ++ "/api/v1/delete_scan"
    method := "POST"
    headers :=
      [("Authorization", c.apiKey), ("X-Mobsf-Api-Key", c.apiKey),
       ("Content-Type", "application/x-www-form-urlencoded")]
    data := some (.urlencoded [("hash", hash)]) }

/-- Request built by `getScorecard`. -/
def MobSFClient.getScorecardConfig (c : MobSFClient) (hash : String) : RequestConfig :=
  { url := c.baseUrl ++ "/api/v1/scorecard"
    method := "POST"
    headers :=
      [("Authorization", c.apiKey), ("X-Mobsf-Api-Key", c.apiKey),
       ("Content-Type", "application/x-www-form-urlencoded")]
    data := some (.urlencoded [("hash", hash)]) }

/-- Request built by `generatePdfReport`: adds an Accept header and asks
for an arraybuffer response. -/
def MobSFClient.generatePdfReportConfig (c : MobSFClient) (hash : String) :
    RequestConfig :=
  { url := c.baseUrl ++ "/api/v1/download_pdf"
    method := "POST"
    headers :=
      [("Authorization", c.apiKey), ("X-Mobsf-Api-Key", c.apiKey),
       ("Content-Type", "application/x-www-form-urlencoded"),
       ("Accept", "application/pdf")]
    data := some (.urlencoded [("hash", hash)])
    responseType := some "arraybuffer" }

/-- Request built by `viewSource`. -/
def MobSFClient.viewSourceConfig (c : MobSFClient) (hash file type_ : String) :
    RequestConfig :=
  { url := c.baseUrl ++ "/api/v1/view_source"
    method := "POST"
    headers :=
      [("Authorization", c.apiKey), ("X-Mobsf-Api-Key", c.apiKey),
       ("Content-Type", "application/x-www-form-urlencoded")]
    data := some (.urlencoded [("hash", hash), ("file", file), ("type", type_)]) }

/-- Request built by `getScanTasks`: a POST with the url-encoded content
type header but no body at all (the config sets no data field). -/
def MobSFClient.getScanTasksConfig (c : MobSFClient) : RequestConfig :=
  { url := c.baseUrl ++ "/api/v1/tasks"
    method := "POST"
    headers :=
      [("Authorization", c.apiKey), ("X-Mobsf-Api-Key", c.apiKey),
       ("Content-Type", "application/x-www-form-urlencoded")] }

/-- Request built by `compareApps`. -/
def MobSFClient.compareAppsConfig (c : MobSFClient) (hash1 hash2 : String) :
    RequestConfig :=
  { url := c.baseUrl ++ "/api/v1/compare"
    method := "POST"
    headers :=
      [("Authorization", c.apiKey), ("X-Mobsf-Api-Key", c.apiKey),
       ("Content-Type", "application/x-www-form-urlencoded")]
    data := some (.urlencoded [("hash1", hash1), ("hash2", hash2)]) }

/-- Request built by `suppressByRule`. -/
def MobSFClient.suppressByRuleConfig (c : MobSFClient) (hash type_ rule : String) :
    RequestConfig :=
  { url := c.baseUrl ++ "/api/v1/suppress_by_rule"
    method := "POST"
    headers :=
      [("Authorization", c.apiKey), ("X-Mobsf-Api-Key", c.apiKey),
       ("Content-Type", "application/x-www-form-urlencoded")]
    data := some (.urlencoded [("hash", hash), ("type", type_), ("rule", rule)]) }

/-- Request built by `suppressByFiles`. -/
def MobSFClient.suppressByFilesConfig (c : MobSFClient) (hash type_ rule : String) :
    RequestConfig :=
  { url := c.baseUrl ++ "/api/v1/suppress_by_files"
    method := "POST"
    headers :=
      [("Authorization", c.apiKey), ("X-Mobsf-Api-Key", c.apiKey),
       ("Content-Type", "application/x-www-form-urlencoded")]
    data := some (.urlencoded [("hash", hash), ("type", type_), ("rule", rule)]) }

/-- Request built by `listSuppressions`. -/
def MobSFClient.listSuppressionsConfig (c : MobSFClient) (hash : String) :
    RequestConfig :=
  { url := c.baseUrl ++ "/api/v1/list_suppressions"
    method := "POST"
    headers :=
      [("Authorization", c.apiKey), ("X-Mobsf-Api-Key", c.apiKey),
       ("Content-Type", "application/x-www-form-urlencoded")]
    data := some (.urlencoded [("hash", hash)]) }

/-- Request built by `deleteSuppression`. -/
def MobSFClient.deleteSuppressionConfig (c : MobSFClient)
    (hash type_ rule kind : String) : RequestConfig :=
  { url := c.baseUrl ++ "/api/v1/delete_suppression"
    method := "POST"
    headers :=
      [("Authorization", c.apiKey), ("X-Mobsf-Api-Key", c.apiKey),
       ("Content-Type", "application/x-www-form-urlencoded")]
    data := some (.urlencoded
      [("hash", hash), ("type", type_), ("rule", rule), ("kind", kind)]) }

/-- Outcome of executing an axios request: a successful response body, an
axios error (carrying the optional response body and the error message),
or any other thrown exception. -/
inductive HttpOutcome (a : Type) where
  | success (data : a) : HttpOutcome a
  | axiosError (responseData : Option Json) (message : String) : HttpOutcome a
  | thrown (e : JsErr) : HttpOutcome a

/-- `MobSFClient.sendRequest`: returns the response body on success; on an
axios error throws `MobSF API Error: ` followed by the pretty-printed
response body when `error.response?.data` is truthy and by the underlying
error message otherwise; rethrows any non-axios exception unchanged. -/
def sendRequest {a : Type} : HttpOutcome a → Except JsErr a
  | .success d => .ok d
  | .axiosError rd msg =>
      let errorData :=
        match rd with
        | some d => if d.truthy then stringifyVal 0 d else msg
        | none => msg
      .error (.error ("MobSF API Error: " ++ errorData))
  | .thrown e => .error e

/-- `MobSFClient.generatePdfReport`: wraps the raw response bytes in a
Buffer on success; duplicates the error handling of `sendRequest`. Bytes
are natural numbers below 256. -/
def MobSFClient.generatePdfReportRun : HttpOutcome (List Nat) → Except JsErr (List Nat)
  | .success d => .ok d
  | .axiosError rd msg =>
      let errorData :=
        match rd with
        | some d => if d.truthy then stringifyVal 0 d else msg
        | none => msg
      .error (.error ("MobSF API Error: " ++ errorData))
  | .thrown e => .error e

/-- The base64 alphabet, as used by `Buffer.toString('base64')`. -/
def b64Alphabet : List Char :=
  "ABCDEFGHIJKLMNOPQRSTUVWXYZabcdefghijklmnopqrstuvwxyz0123456789+/".data

/-- The base64 character of a sextet. -/
def sextetChar (n : Nat) : Char :=
  b64Alphabet.getD n 'A'

/-- The sextet of a base64 character, `none` for characters outside the
alphabet (including the padding character). -/
def charSextet (c : Char) : Option Nat :=
  List.findIdx? (fun d => d = c) b64Alphabet

/-- `Buffer.toString('base64')` over the byte list: standard base64 with
padding. -/
def base64EncodeChars : List Nat → List Char
  | [] => []
  | [b0] =>
      [sextetChar (b0 / 4), sextetChar (b0 % 4 * 16), '=', '=']
  | [b0, b1] =>
      [sextetChar (b0 / 4), sextetChar (b0 % 4 * 16 + b1 / 16),
       sextetChar (b1 % 16 * 4), '=']
  | b0 :: b1 :: b2 :: rest =>
      sextetChar (b0 / 4) :: sextetChar (b0 % 4 * 16 + b1 / 16)
        :: sextetChar (b1 % 16 * 4 + b2 / 64) :: sextetChar (b2 % 64)
        :: base64EncodeChars rest

/-- The base64 string of a byte list. -/
def base64Encode (bytes : List Nat) : String :=
  String.mk (base64EncodeChars bytes)

/-- Base64 decoding over characters, `none` on malformed input. -/
def base64DecodeChars : List Char → Option (List Nat)
  | [] => some []
  | c0 :: c1 :: c2 :: c3 :: rest =>
      match charSextet c0, charSextet c1 with
      | some s0, some s1 =>
          if c2 = '=' ∧ c3 = '=' ∧ rest = [] then
            some [s0 * 4 + s1 / 16]
          else
            match charSextet c2 with
            | some s2 =>
                if c3 = '=' ∧ rest = [] then
                  some [s0 * 4 + s1 / 16, s1 % 16 * 16 + s2 / 4]
                else
                  match charSextet c3, base64DecodeChars rest with
                  | some s3, some bs =>
                      some ((s0 * 4 + s1 / 16) :: (s1 % 16 * 16 + s2 / 4)
                        :: (s2 % 4 * 64 + s3) :: bs)
                  | _, _ => none
            | none => none
      | _, _ => none
  | _ => none

/-- Base64 decoding of a string. -/
def base64Decode (s : String) : Option (List Nat) :=
  base64DecodeChars s.data

/-- The `uploadFile` tool handler: serializes the backend result as
indented JSON text; a backend failure rejects the call. -/
def uploadFileTool : Except JsErr Json → Except JsErr ToolResult
  | .error e => .error e
  | .ok result => .ok ⟨[Content.text (some (stringifyVal 0 result))]⟩

/-- The `getScanLogs` tool handler: serializes the backend result. -/
def getScanLogsTool : Except JsErr Json → Except JsErr ToolResult
  | .error e => .error e
  | .ok result => .ok ⟨[Content.text (some (stringifyVal 0 result))]⟩

/-- The `getJsonReport` tool handler: serializes the backend result. -/
def getJsonReportTool : Except JsErr Json → Except JsErr ToolResult
  | .error e => .error e
  | .ok result => .ok ⟨[Content.text (some (stringifyVal 0 result))]⟩

/-- The `getRecentScans` tool handler: serializes the backend result. -/
def getRecentScansTool : Except JsErr Json → Except JsErr ToolResult
  | .error e => .error e
  | .ok result => .ok ⟨[Content.text (some (stringifyVal 0 result))]⟩

/-- The `searchScanResult` tool handler: serializes the backend result. -/
def searchScanResultTool : Except JsErr Json → Except JsErr ToolResult
  | .error e => .error e
  | .ok result => .ok ⟨[Content.text (some (stringifyVal 0 result))]⟩

/-- The `deleteScan` tool handler: serializes the backend result. -/
def deleteScanTool : Except JsErr Json → Except JsErr ToolResult
  | .error e => .error e
  | .ok result => .ok ⟨[Content.text (some (stringifyVal 0 result))]⟩

/-- The `getScorecard` tool handler: serializes the backend result. -/
def getScorecardTool : Except JsErr Json → Except JsErr ToolResult
  | .error e => .error e
  | .ok result => .ok ⟨[Content.text (some (stringifyVal 0 result))]⟩

/-- The `viewSource` tool handler: passes a string result through
unchanged, serializes anything else. -/
def viewSourceTool : Except JsErr Json → Except JsErr ToolResult
  | .error e => .error e
  | .ok result =>
      .ok ⟨[Content.text (some (match result with
        | .str s => s
        | r => stringifyVal 0 r))]⟩

/-- The `suppressByRule` tool handler: string passthrough, else serialize. -/
def suppressByRuleTool : Except JsErr Json → Except JsErr ToolResult
  | .error e => .error e
  | .ok result =>
      .ok ⟨[Content.text (some (match result with
        | .str s => s
        | r => stringifyVal 0 r))]⟩

/-- The `suppressByFiles` tool handler: string passthrough, else serialize. -/
def suppressByFilesTool : Except JsErr Json → Except JsErr ToolResult
  | .error e => .error e
  | .ok result =>
      .ok ⟨[Content.text (some (match result with
        | .str s => s
        | r => stringifyVal 0 r))]⟩

/-- The `listSuppressions` tool handler: string passthrough, else serialize. -/
def listSuppressionsTool : Except JsErr Json → Except JsErr ToolResult
  | .error e => .error e
  | .ok result =>
      .ok ⟨[Content.text (some (match result with
        | .str s => s
        | r => stringifyVal 0 r))]⟩

/-- The `deleteSuppression` tool handler: string passthrough, else serialize. -/
def deleteSuppressionTool : Except JsErr Json → Except JsErr ToolResult
  | .error e => .error e
  | .ok result =>
      .ok ⟨[Content.text (some (match result with
        | .str s => s
        | r => stringifyVal 0 r))]⟩

/-- The `getScanTasks` tool handler: places the backend string in the text
content unchanged (the client method's result type is string). -/
def getScanTasksTool : Except JsErr String → Except JsErr ToolResult
  | .error e => .error e
  | .ok result => .ok ⟨[Content.text (some result)]⟩

/-- The `compareApps` tool handler: places the backend string in the text
content unchanged. -/
def compareAppsTool : Except JsErr String → Except JsErr ToolResult
  | .error e => .error e
  | .ok result => .ok ⟨[Content.text (some result)]⟩

/-- The `generatePdfReport` tool handler: wraps the PDF bytes as a binary
resource with a hash-derived URI, a base64 blob and the PDF MIME type. -/
def generatePdfReportTool (pdfOf : String → Except JsErr (List Nat))
    (hash : String) : Except JsErr ToolResult :=
  match pdfOf hash with
  | .error e => .error e
  | .ok buffer =>
      .ok ⟨[Content.resource ("mobsf_report_" ++ hash ++ ".pdf")
              (base64Encode buffer) "application/pdf"]⟩

/-- The `getJsonReportSection` tool handler: fetches the report for the
hash (the backend modelled as the oracle `reportOf`), parses it if it is
a string, looks up the section, and branches on `if (!sectionData)`:
truthy values are serialized, absent or falsy values yield the
section-not-found message — in both cases a successful result. -/
def getJsonReportSectionTool (reportOf : String → Except JsErr Json)
    (parse : String → Json) (hash sec : String) : Except JsErr ToolResult :=
  match reportOf hash with
  | .error e => .error e
  | .ok result =>
      let data := jsData parse result
      let sectionData := data.getField sec
      if jsTruthyOpt sectionData then
        .ok ⟨[Content.text (some (stringifyVal 0
          ((sectionData).getD Json.null)))]⟩
      else
        .ok ⟨[Content.text (some (notFoundMessage sec))]⟩

/-- The `getJsonReportSections` tool handler: fetches and parses the
report and serializes its list of top-level keys. -/
def getJsonReportSectionsTool (reportOf : String → Except JsErr Json)
    (parse : String → Json) (hash : String) : Except JsErr ToolResult :=
  match reportOf hash with
  | .error e => .error e
  | .ok result =>
      let data := jsData parse result
      .ok ⟨[Content.text (some (stringifyVal 0
        (Json.arr (data.objKeys.map Json.str))))]⟩

/-- The MD5 field of one recent-scans item as it ends up in the serialized
array: `item.MD5`, with an undefined field rendered as null by
JSON.stringify inside an array. -/
def itemMD5 (item : Json) : Json :=
  (item.getField "MD5").getD Json.null

/-- The `listAllHashes` tool handler: fetches a page of recent scans
(the backend modelled as the oracle `scansOf`), parses if stringified,
takes `data.content || []`, and maps each item to its MD5 field; calling
`.map` on a truthy non-array content value throws a TypeError. -/
def listAllHashesTool (scansOf : Int → Int → Except JsErr Json)
    (parse : String → Json) (page pageSize : Int) : Except JsErr ToolResult :=
  match scansOf page pageSize with
  | .error e => .error e
  | .ok result =>
      let data := jsData parse result
      let contentVal := data.getField "content"
      if jsTruthyOpt contentVal then
        match contentVal with
        | some (.arr items) =>
            .ok ⟨[Content.text (some (stringifyVal 0
              (Json.arr (items.map itemMD5))))]⟩
        | _ => .error .typeError
      else
        .ok ⟨[Content.text (some (stringifyVal 0 (Json.arr [])))]⟩

/-- The fixed list of known report section names driving the generated
per-section tools. -/
def jsonSections : List String :=
  ["version", "title", "file_name", "app_name", "app_type", "size", "md5",
   "sha1", "sha256", "package_name", "main_activity", "exported_activities",
   "browsable_activities", "activities", "receivers", "providers",
   "services", "libraries", "target_sdk", "max_sdk", "min_sdk",
   "version_name", "version_code", "permissions", "malware_permissions",
   "certificate_analysis", "manifest_analysis", "network_security",
   "binary_analysis", "file_analysis", "android_api", "code_analysis",
   "niap_analysis", "permission_mapping", "urls", "domains", "emails",
   "strings", "firebase_urls", "exported_count", "apkid", "behaviour",
   "trackers", "playstore_details", "secrets", "logs", "sbom",
   "average_cvss", "appsec", "virus_total", "base_url", "dwd_dir",
   "host_os"]

/-- The handler of one generated `getJsonSection_<name>` tool: fetches and
parses the report and serializes the captured section's value; an absent
section serializes to the undefined value (`JSON.stringify(undefined)` is
undefined, so the text field itself is undefined), with no not-found
message. -/
def getJsonSectionTool (sec : String) (parse : String → Json)
    (reportOf : String → Except JsErr Json) (hash : String) :
    Except JsErr ToolResult :=
  match reportOf hash with
  | .error e => .error e
  | .ok result =>
      let data := jsData parse result
      .ok ⟨[Content.text ((data.getField sec).map (stringifyVal 0))]⟩

/-- The type of a generated per-section tool handler. -/
def SectionHandler : Type :=
  (String → Json) → (String → Except JsErr Json) → String →
    Except JsErr ToolResult

/-- The per-section tools registered by the startup loop: one
`getJsonSection_<name>` tool per entry of `jsonSections`, each handler
capturing its own section name. -/
def registeredSectionTools : List (String × SectionHandler) :=
  jsonSections.map (fun sec =>
    ("getJsonSection_" ++ sec,
     fun parse reportOf hash => getJsonSectionTool sec parse reportOf hash))

/-- C1 counterexample: in the report with section "a" present as a
top-level key but mapped to null, the getJsonReportSection tool returns
the not-found message rather than the serialized value "null". -/
theorem c1_counterexample :
    getJsonReportSectionTool
        (fun _ => .ok (Json.obj [("a", Json.null)]))
        (fun _ => Json.null) "h" "a"
      = .ok ⟨[Content.text (some (notFoundMessage "a"))]⟩
    ∧ "a" ∈ (Json.obj [("a", Json.null)]).objKeys
    ∧ notFoundMessage "a" ≠ stringifyVal 0 Json.null := by
  refine ⟨rfl, by decide, by decide⟩

/-- C1 (amended): for every hash and section name whose looked-up value in
the report is truthy, getJsonReportSection returns a successful text
result equal to the indented JSON serialization of that value; whenever
the looked-up value is absent or falsy, it returns the literal
section-not-found message, also as a successful (non-error) result. -/
theorem c1_section_lookup (reportOf : String → Except JsErr Json)
    (parse : String → Json) (hash sec : String) (result : Json)
    (hres : reportOf hash = .ok result) :
    (∀ v, (jsData parse result).getField sec = some v → v.truthy = true →
      getJsonReportSectionTool reportOf parse hash sec
        = .ok ⟨[Content.text (some (stringifyVal 0 v))]⟩)
    ∧ (jsTruthyOpt ((jsData parse result).getField sec) = false →
      getJsonReportSectionTool reportOf parse hash sec
        = .ok ⟨[Content.text (some (notFoundMessage sec))]⟩) := by
  constructor
  · intro v hv htr
    simp [getJsonReportSectionTool, hres, hv, jsTruthyOpt, htr]
  · intro hf
    simp [getJsonReportSectionTool, hres, hf]

/-- C1 witness: a concrete report where the requested section holds a
(truthy) array, serialized by the tool. -/
theorem c1_section_lookup_witness :
    getJsonReportSectionTool
        (fun _ => .ok (Json.obj [("permissions", Json.arr [Json.str "p"])]))
        (fun _ => Json.null) "h" "permissions"
      = .ok ⟨[Content.text (some (stringifyVal 0 (Json.arr [Json.str "p"])))]⟩ :=
  (c1_section_lookup
      (fun _ => .ok (Json.obj [("permissions", Json.arr [Json.str "p"])]))
      (fun _ => Json.null) "h" "permissions"
      (Json.obj [("permissions", Json.arr [Json.str "p"])]) rfl).1
    (Json.arr [Json.str "p"]) rfl rfl

/-- C2: the not-found branch of getJsonReportSection is selected by
truthiness, not key presence: a section key present in the report but
mapped to null, false, 0 or the empty string yields the not-found
message. -/
theorem c2_falsy_section_not_found (reportOf : String → Except JsErr Json)
    (parse : String → Json) (hash sec : String)
    (kvs : List (String × Json)) (v : Json)
    (hres : reportOf hash = .ok (Json.obj kvs))
    (hv : List.lookup sec kvs = some v)
    (hfalsy : v = Json.null ∨ v = Json.bool false ∨ v = Json.num 0
      ∨ v = Json.str "") :
    getJsonReportSectionTool reportOf parse hash sec
      = .ok ⟨[Content.text (some (notFoundMessage sec))]⟩ := by
  rcases hfalsy with h | h | h | h <;> subst h <;>
    simp [getJsonReportSectionTool, hres, jsData, Json.getField, hv,
      jsTruthyOpt, Json.truthy]

/-- C2 witness: the report mapping "secrets" to false triggers the
not-found message. -/
theorem c2_falsy_section_not_found_witness :
    getJsonReportSectionTool
        (fun _ => .ok (Json.obj [("secrets", Json.bool false)]))
        (fun _ => Json.null) "h" "secrets"
      = .ok ⟨[Content.text (some (notFoundMessage "secrets"))]⟩ :=
  c2_falsy_section_not_found _ _ "h" "secrets" _ _ rfl rfl
    (Or.inr (Or.inl rfl))

/-- C3: getJsonReportSections returns exactly the ordered top-level key
list of the (string-parsed, when needed) report that generateJsonReport
returns for the same hash, serialized as indented JSON text. -/
theorem c3_sections_are_report_keys (reportOf : String → Except JsErr Json)
    (parse : String → Json) (hash : String) (result : Json)
    (kvs : List (String × Json))
    (hres : reportOf hash = .ok result)
    (hobj : jsData parse result = Json.obj kvs) :
    getJsonReportSectionsTool reportOf parse hash
      = .ok ⟨[Content.text (some (stringifyVal 0
          (Json.arr ((kvs.map Prod.fst).map Json.str))))]⟩ := by
  simp [getJsonReportSectionsTool, hres, hobj, Json.objKeys]

/-- C3 witness: a two-section report whose key list the tool serializes. -/
theorem c3_sections_are_report_keys_witness :
    getJsonReportSectionsTool
        (fun _ => .ok (Json.obj [("md5", Json.str "x"), ("urls", Json.arr [])]))
        (fun _ => Json.null) "h"
      = .ok ⟨[Content.text (some (stringifyVal 0
          (Json.arr [Json.str "md5", Json.str "urls"])))]⟩ :=
  c3_sections_are_report_keys _ _ "h" _
    [("md5", Json.str "x"), ("urls", Json.arr [])] rfl rfl

/-- C4: listAllHashes maps each item of the content array of the scans
response to its MD5 field, in order, and serializes the resulting array;
a response without a content field yields the empty array. -/
theorem c4_listAllHashes (scansOf : Int → Int → Except JsErr Json)
    (parse : String → Json) (page pageSize : Int) (result : Json)
    (kvs : List (String × Json))
    (hres : scansOf page pageSize = .ok result)
    (hobj : jsData parse result = Json.obj kvs) :
    (∀ items, List.lookup "content" kvs = some (Json.arr items) →
      listAllHashesTool scansOf parse page pageSize
        = .ok ⟨[Content.text (some (stringifyVal 0
            (Json.arr (items.map itemMD5))))]⟩)
    ∧ (List.lookup "content" kvs = none →
      listAllHashesTool scansOf parse page pageSize
        = .ok ⟨[Content.text (some "[]")]⟩) := by
  constructor
  · intro items hc
    simp [listAllHashesTool, hres, hobj, Json.getField, hc, jsTruthyOpt,
      Json.truthy]
  · intro hc
    simp [listAllHashesTool, hres, hobj, Json.getField, hc, jsTruthyOpt]
    rfl

/-- C4 witness: the response with content [(MD5 a), (MD5 b)] yields the
serialized array of the two hashes, and the response without a content
field yields the empty array. -/
theorem c4_listAllHashes_witness :
    (listAllHashesTool
        (fun _ _ => .ok (Json.obj [("content", Json.arr
          [Json.obj [("MD5", Json.str "a")], Json.obj [("MD5", Json.str "b")]])]))
        (fun _ => Json.null) 1 10
      = .ok ⟨[Content.text (some (stringifyVal 0 (Json.arr
          ([Json.obj [("MD5", Json.str "a")], Json.obj [("MD5", Json.str "b")]].map
            itemMD5))))]⟩)
    ∧ (listAllHashesTool (fun _ _ => .ok (Json.obj [("count", Json.num 0)]))
        (fun _ => Json.null) 1 10
      = .ok ⟨[Content.text (some "[]")]⟩) :=
  ⟨(c4_listAllHashes
      (fun _ _ => .ok (Json.obj [("content", Json.arr
        [Json.obj [("MD5", Json.str "a")], Json.obj [("MD5", Json.str "b")]])]))
      (fun _ => Json.null) 1 10
      (Json.obj [("content", Json.arr
        [Json.obj [("MD5", Json.str "a")], Json.obj [("MD5", Json.str "b")]])])
      [("content", Json.arr
        [Json.obj [("MD5", Json.str "a")], Json.obj [("MD5", Json.str "b")]])]
      rfl rfl).1 _ rfl,
   (c4_listAllHashes (fun _ _ => .ok (Json.obj [("count", Json.num 0)]))
      (fun _ => Json.null) 1 10 (Json.obj [("count", Json.num 0)])
      [("count", Json.num 0)] rfl rfl).2 rfl⟩

/-- C5 counterexample: an axios failure carrying the response body 0 (a
falsy but present JSON body) is surfaced with the underlying transport
message, not with the pretty-printed body "0". -/
theorem c5_counterexample :
    sendRequest (a := Json)
        (.axiosError (some (Json.num 0)) "Request failed with status code 500")
      = .error (.error ("MobSF API Error: Request failed with status code 500"))
    ∧ "MobSF API Error: Request failed with status code 500"
        ≠ "MobSF API Error: " ++ stringifyVal 0 (Json.num 0) := by
  refine ⟨rfl, by decide⟩

/-- C5 (amended): an axios failure whose response body is truthy is
surfaced as a thrown error whose message is the fixed prefix
"MobSF API Error: " followed by the pretty-printed JSON of the body; a
failure whose body is absent or falsy uses the underlying error message
with the same prefix; a non-axios exception propagates unchanged — both
in sendRequest (used by every client method but one) and in
generatePdfReport's duplicated handler. -/
theorem c5_error_wrapping {a : Type} (rd : Option Json) (msg : String)
    (e : JsErr) (d : Json) :
    (rd = some d → d.truthy = true →
      sendRequest (a := a) (.axiosError rd msg)
        = .error (.error ("MobSF API Error: " ++ stringifyVal 0 d))
      ∧ MobSFClient.generatePdfReportRun (.axiosError rd msg)
        = .error (.error ("MobSF API Error: " ++ stringifyVal 0 d)))
    ∧ (jsTruthyOpt rd = false →
      sendRequest (a := a) (.axiosError rd msg)
        = .error (.error ("MobSF API Error: " ++ msg))
      ∧ MobSFClient.generatePdfReportRun (.axiosError rd msg)
        = .error (.error ("MobSF API Error: " ++ msg)))
    ∧ sendRequest (a := a) (.thrown e) = .error e
    ∧ MobSFClient.generatePdfReportRun (.thrown e) = .error e := by
  refine ⟨?_, ?_, rfl, rfl⟩
  · intro hrd htr
    subst hrd
    constructor <;> simp [sendRequest, MobSFClient.generatePdfReportRun, htr]
  · intro hf
    cases rd with
    | none => exact ⟨rfl, rfl⟩
    | some d' =>
        simp [jsTruthyOpt] at hf
        constructor <;>
          simp [sendRequest, MobSFClient.generatePdfReportRun, hf]

/-- C5 witness: the HTTP 500 failure with JSON body (error boom) surfaces
with the prefix and the pretty-printed body from both error handlers. -/
theorem c5_error_wrapping_witness :
    sendRequest (a := Json)
        (.axiosError (some (Json.obj [("error", Json.str "boom")]))
          "Request failed with status code 500")
      = .error (.error ("MobSF API Error: "
          ++ stringifyVal 0 (Json.obj [("error", Json.str "boom")])))
    ∧ MobSFClient.generatePdfReportRun
        (.axiosError (some (Json.obj [("error", Json.str "boom")]))
          "Request failed with status code 500")
      = .error (.error ("MobSF API Error: "
          ++ stringifyVal 0 (Json.obj [("error", Json.str "boom")]))) :=
  (c5_error_wrapping (some (Json.obj [("error", Json.str "boom")]))
      "Request failed with status code 500" .typeError
      (Json.obj [("error", Json.str "boom")])).1 rfl rfl

/-- C7: every request built by every MobSFClient method carries both the
Authorization header and the X-Mobsf-Api-Key header set to the stored API
key, and its URL is the stored base URL (the constructor argument with a
single trailing slash stripped) followed by the fixed path suffix. -/
theorem c7_auth_headers_and_urls (baseUrl apiKey : String) (c : MobSFClient)
    (filePath boundary hash query file type_ hash1 hash2 rule kind : String)
    (page pageSize : Int) :
    (createMobSFClient baseUrl apiKey).baseUrl
      = (if baseUrl.endsWith "/" then baseUrl.dropRight 1 else baseUrl)
    ∧ (createMobSFClient baseUrl apiKey).apiKey = apiKey
    ∧ hdrGet (c.uploadFileConfig filePath boundary).headers "Authorization"
        = some c.apiKey
    ∧ hdrGet (c.uploadFileConfig filePath boundary).headers "X-Mobsf-Api-Key"
        = some c.apiKey
    ∧ (c.uploadFileConfig filePath boundary).url = c.baseUrl ++ "/api/v1/upload"
    ∧ hdrGet (c.getScanLogsConfig hash).headers "Authorization" = some c.apiKey
    ∧ hdrGet (c.getScanLogsConfig hash).headers "X-Mobsf-Api-Key" = some c.apiKey
    ∧ (c.getScanLogsConfig hash).url = c.baseUrl ++ "/api/v1/scan_logs"
    ∧ hdrGet (c.generateJsonReportConfig hash).headers "Authorization"
        = some c.apiKey
    ∧ hdrGet (c.generateJsonReportConfig hash).headers "X-Mobsf-Api-Key"
        = some c.apiKey
    ∧ (c.generateJsonReportConfig hash).url = c.baseUrl ++ "/api/v1/report_json"
    ∧ hdrGet (c.getRecentScansConfig page pageSize).headers "Authorization"
        = some c.apiKey
    ∧ hdrGet (c.getRecentScansConfig page pageSize).headers "X-Mobsf-Api-Key"
        = some c.apiKey
    ∧ (c.getRecentScansConfig page pageSize).url = c.baseUrl ++ "/api/v1/scans"
    ∧ hdrGet (c.searchScanResultConfig query).headers "Authorization"
        = some c.apiKey
    ∧ hdrGet (c.searchScanResultConfig query).headers "X-Mobsf-Api-Key"
        = some c.apiKey
    ∧ (c.searchScanResultConfig query).url = c.baseUrl ++ "/api/v1/search"
    ∧ hdrGet (c.deleteScanConfig hash).headers "Authorization" = some c.apiKey
    ∧ hdrGet (c.deleteScanConfig hash).headers "X-Mobsf-Api-Key" = some c.apiKey
    ∧ (c.deleteScanConfig hash).url = c.baseUrl ++ "/api/v1/delete_scan"
    ∧ hdrGet (c.getScorecardConfig hash).headers "Authorization" = some c.apiKey
    ∧ hdrGet (c.getScorecardConfig hash).headers "X-Mobsf-Api-Key" = some c.apiKey
    ∧ (c.getScorecardConfig hash).url = c.baseUrl ++ "/api/v1/scorecard"
    ∧ hdrGet (c.generatePdfReportConfig hash).headers "Authorization"
        = some c.apiKey
    ∧ hdrGet (c.generatePdfReportConfig hash).headers "X-Mobsf-Api-Key"
        = some c.apiKey
    ∧ (c.generatePdfReportConfig hash).url = c.baseUrl ++ "/api/v1/download_pdf"
    ∧ hdrGet (c.viewSourceConfig hash file type_).headers "Authorization"
        = some c.apiKey
    ∧ hdrGet (c.viewSourceConfig hash file type_).headers "X-Mobsf-Api-Key"
        = some c.apiKey
    ∧ (c.viewSourceConfig hash file type_).url = c.baseUrl ++ "/api/v1/view_source"
    ∧ hdrGet c.getScanTasksConfig.headers "Authorization" = some c.apiKey
    ∧ hdrGet c.getScanTasksConfig.headers "X-Mobsf-Api-Key" = some c.apiKey
    ∧ c.getScanTasksConfig.url = c.baseUrl ++ "/api/v1/tasks"
    ∧ hdrGet (c.compareAppsConfig hash1 hash2).headers "Authorization"
        = some c.apiKey
    ∧ hdrGet (c.compareAppsConfig hash1 hash2).headers "X-Mobsf-Api-Key"
        = some c.apiKey
    ∧ (c.compareAppsConfig hash1 hash2).url = c.baseUrl ++ "/api/v1/compare"
    ∧ hdrGet (c.suppressByRuleConfig hash type_ rule).headers "Authorization"
        = some c.apiKey
    ∧ hdrGet (c.suppressByRuleConfig hash type_ rule).headers "X-Mobsf-Api-Key"
        = some c.apiKey
    ∧ (c.suppressByRuleConfig hash type_ rule).url
        = c.baseUrl ++ "/api/v1/suppress_by_rule"
    ∧ hdrGet (c.suppressByFilesConfig hash type_ rule).headers "Authorization"
        = some c.apiKey
    ∧ hdrGet (c.suppressByFilesConfig hash type_ rule).headers "X-Mobsf-Api-Key"
        = some c.apiKey
    ∧ (c.suppressByFilesConfig hash type_ rule).url
        = c.baseUrl ++ "/api/v1/suppress_by_files"
    ∧ hdrGet (c.listSuppressionsConfig hash).headers "Authorization"
        = some c.apiKey
    ∧ hdrGet (c.listSuppressionsConfig hash).headers "X-Mobsf-Api-Key"
        = some c.apiKey
    ∧ (c.listSuppressionsConfig hash).url
        = c.baseUrl ++ "/api/v1/list_suppressions"
    ∧ hdrGet (c.deleteSuppressionConfig hash type_ rule kind).headers
        "Authorization" = some c.apiKey
    ∧ hdrGet (c.deleteSuppressionConfig hash type_ rule kind).headers
        "X-Mobsf-Api-Key" = some c.apiKey
    ∧ (c.deleteSuppressionConfig hash type_ rule kind).url
        = c.baseUrl ++ "/api/v1/delete_suppression" := by
  repeat' apply And.intro
  all_goals rfl

/-- Whether an optional request body is a url-encoded form body. -/
def isFormBody : Option Body → Bool
  | some (.urlencoded _) => true
  | _ => false

/-- C8 counterexample: getScanTasks is a POST carrying the explicit
url-encoded content type header, yet its request sets no body at all, so
not every non-upload POST sends a url-encoded form body. -/
theorem c8_counterexample :
    ((createMobSFClient "http://x" "k").getScanTasksConfig).method = "POST"
    ∧ hdrGet ((createMobSFClient "http://x" "k").getScanTasksConfig).headers
        "Content-Type" = some "application/x-www-form-urlencoded"
    ∧ isFormBody ((createMobSFClient "http://x" "k").getScanTasksConfig).data
        = false
    ∧ ((createMobSFClient "http://x" "k").getScanTasksConfig).data = none :=
  ⟨rfl, rfl, rfl, rfl⟩

/-- C8 (amended): the uploadFile request body is multipart with the
content-type header (including the boundary) taken from the multipart
body constructor and no explicit Content-Type override, while every
other POST request carries an explicit url-encoded Content-Type header
and — except getScanTasks, which sends no body — a url-encoded form
body. -/
theorem c8_body_encodings (c : MobSFClient)
    (filePath boundary hash query file type_ hash1 hash2 rule kind : String) :
    hdrGet (c.uploadFileConfig filePath boundary).headers "content-type"
      = some ("multipart/form-data; boundary=" ++ boundary)
    ∧ hdrGet (c.uploadFileConfig filePath boundary).headers "Content-Type" = none
    ∧ (c.uploadFileConfig filePath boundary).data
        = some (.multipart "file" filePath)
    ∧ (c.getScanLogsConfig hash).method = "POST"
    ∧ hdrGet (c.getScanLogsConfig hash).headers "Content-Type"
        = some "application/x-www-form-urlencoded"
    ∧ (c.getScanLogsConfig hash).data = some (.urlencoded [("hash", hash)])
    ∧ (c.generateJsonReportConfig hash).method = "POST"
    ∧ hdrGet (c.generateJsonReportConfig hash).headers "Content-Type"
        = some "application/x-www-form-urlencoded"
    ∧ (c.generateJsonReportConfig hash).data = some (.urlencoded [("hash", hash)])
    ∧ (c.searchScanResultConfig query).method = "POST"
    ∧ hdrGet (c.searchScanResultConfig query).headers "Content-Type"
        = some "application/x-www-form-urlencoded"
    ∧ (c.searchScanResultConfig query).data = some (.urlencoded [("query", query)])
    ∧ (c.deleteScanConfig hash).method = "POST"
    ∧ hdrGet (c.deleteScanConfig hash).headers "Content-Type"
        = some "application/x-www-form-urlencoded"
    ∧ (c.deleteScanConfig hash).data = some (.urlencoded [("hash", hash)])
    ∧ (c.getScorecardConfig hash).method = "POST"
    ∧ hdrGet (c.getScorecardConfig hash).headers "Content-Type"
        = some "application/x-www-form-urlencoded"
    ∧ (c.getScorecardConfig hash).data = some (.urlencoded [("hash", hash)])
    ∧ (c.generatePdfReportConfig hash).method = "POST"
    ∧ hdrGet (c.generatePdfReportConfig hash).headers "Content-Type"
        = some "application/x-www-form-urlencoded"
    ∧ (c.generatePdfReportConfig hash).data = some (.urlencoded [("hash", hash)])
    ∧ (c.viewSourceConfig hash file type_).method = "POST"
    ∧ hdrGet (c.viewSourceConfig hash file type_).headers "Content-Type"
        = some "application/x-www-form-urlencoded"
    ∧ (c.viewSourceConfig hash file type_).data
        = some (.urlencoded [("hash", hash), ("file", file), ("type", type_)])
    ∧ c.getScanTasksConfig.method = "POST"
    ∧ hdrGet c.getScanTasksConfig.headers "Content-Type"
        = some "application/x-www-form-urlencoded"
    ∧ c.getScanTasksConfig.data = none
    ∧ (c.compareAppsConfig hash1 hash2).method = "POST"
    ∧ hdrGet (c.compareAppsConfig hash1 hash2).headers "Content-Type"
        = some "application/x-www-form-urlencoded"
    ∧ (c.compareAppsConfig hash1 hash2).data
        = some (.urlencoded [("hash1", hash1), ("hash2", hash2)])
    ∧ (c.suppressByRuleConfig hash type_ rule).method = "POST"
    ∧ hdrGet (c.suppressByRuleConfig hash type_ rule).headers "Content-Type"
        = some "application/x-www-form-urlencoded"
    ∧ (c.suppressByRuleConfig hash type_ rule).data
        = some (.urlencoded [("hash", hash), ("type", type_), ("rule", rule)])
    ∧ (c.suppressByFilesConfig hash type_ rule).method = "POST"
    ∧ hdrGet (c.suppressByFilesConfig hash type_ rule).headers "Content-Type"
        = some "application/x-www-form-urlencoded"
    ∧ (c.suppressByFilesConfig hash type_ rule).data
        = some (.urlencoded [("hash", hash), ("type", type_), ("rule", rule)])
    ∧ (c.listSuppressionsConfig hash).method = "POST"
    ∧ hdrGet (c.listSuppressionsConfig hash).headers "Content-Type"
        = some "application/x-www-form-urlencoded"
    ∧ (c.listSuppressionsConfig hash).data = some (.urlencoded [("hash", hash)])
    ∧ (c.deleteSuppressionConfig hash type_ rule kind).method = "POST"
    ∧ hdrGet (c.deleteSuppressionConfig hash type_ rule kind).headers
        "Content-Type" = some "application/x-www-form-urlencoded"
    ∧ (c.deleteSuppressionConfig hash type_ rule kind).data
        = some (.urlencoded
            [("hash", hash), ("type", type_), ("rule", rule), ("kind", kind)]) := by
  repeat' apply And.intro
  all_goals rfl

/-- C9: for each name in the fixed section list, a tool named
getJsonSection_name is registered whose handler fetches the report,
parses it if stringified, and returns the section's value serialized as
indented JSON text — with an absent section the text is the serialization
of the undefined value (itself undefined), still a successful result, and
never the not-found message of the generic section tool. -/
theorem c9_generated_section_tools (sec : String) (hsec : sec ∈ jsonSections)
    (parse : String → Json) (reportOf : String → Except JsErr Json)
    (hash : String) (result : Json)
    (hres : reportOf hash = .ok result) :
    ∃ h, ("getJsonSection_" ++ sec, h) ∈ registeredSectionTools
      ∧ h parse reportOf hash
          = .ok ⟨[Content.text (((jsData parse result).getField sec).map
              (stringifyVal 0))]⟩
      ∧ ((jsData parse result).getField sec = none →
          h parse reportOf hash = .ok ⟨[Content.text none]⟩
          ∧ h parse reportOf hash
              ≠ .ok ⟨[Content.text (some (notFoundMessage sec))]⟩) := by
  refine ⟨fun p r hh => getJsonSectionTool sec p r hh, ?_, ?_, ?_⟩
  · exact List.mem_map_of_mem
      (fun s => ("getJsonSection_" ++ s,
        fun p r hh => getJsonSectionTool s p r hh)) hsec
  · simp [getJsonSectionTool, hres]
  · intro habs
    constructor
    · simp [getJsonSectionTool, hres, habs]
    · simp [getJsonSectionTool, hres, habs]

/-- C9 witness: the tool generated for "permissions", on a report lacking
that section, resolves with an undefined text body and not with the
not-found message. -/
theorem c9_generated_section_tools_witness :
    ∃ h, ("getJsonSection_" ++ "permissions", h) ∈ registeredSectionTools
      ∧ h (fun _ => Json.null)
            (fun _ => .ok (Json.obj [("md5", Json.str "x")])) "h"
          = .ok ⟨[Content.text (((jsData (fun _ => Json.null)
              (Json.obj [("md5", Json.str "x")])).getField "permissions").map
              (stringifyVal 0))]⟩
      ∧ ((jsData (fun _ => Json.null)
            (Json.obj [("md5", Json.str "x")])).getField "permissions" = none →
          h (fun _ => Json.null)
              (fun _ => .ok (Json.obj [("md5", Json.str "x")])) "h"
            = .ok ⟨[Content.text none]⟩
          ∧ h (fun _ => Json.null)
              (fun _ => .ok (Json.obj [("md5", Json.str "x")])) "h"
            ≠ .ok ⟨[Content.text (some (notFoundMessage "permissions"))]⟩) :=
  c9_generated_section_tools "permissions" (by decide) (fun _ => Json.null)
    (fun _ => .ok (Json.obj [("md5", Json.str "x")])) "h"
    (Json.obj [("md5", Json.str "x")]) rfl

/-- C10: result shaping is tool-specific on string backend bodies:
getScanTasks and compareApps pass the string through unchanged;
viewSource and the suppression tools pass a string through but serialize
any non-string; the remaining plain tools always serialize, so a string
body appears as a JSON string literal with added surrounding quotes and
escaping. -/
theorem c10_result_shaping (s : String) (r w : Json) (hns : r.isStr = false) :
    getScanTasksTool (.ok s) = .ok ⟨[Content.text (some s)]⟩
    ∧ compareAppsTool (.ok s) = .ok ⟨[Content.text (some s)]⟩
    ∧ viewSourceTool (.ok (Json.str s)) = .ok ⟨[Content.text (some s)]⟩
    ∧ viewSourceTool (.ok r) = .ok ⟨[Content.text (some (stringifyVal 0 r))]⟩
    ∧ suppressByRuleTool (.ok (Json.str s)) = .ok ⟨[Content.text (some s)]⟩
    ∧ suppressByRuleTool (.ok r) = .ok ⟨[Content.text (some (stringifyVal 0 r))]⟩
    ∧ suppressByFilesTool (.ok (Json.str s)) = .ok ⟨[Content.text (some s)]⟩
    ∧ suppressByFilesTool (.ok r) = .ok ⟨[Content.text (some (stringifyVal 0 r))]⟩
    ∧ listSuppressionsTool (.ok (Json.str s)) = .ok ⟨[Content.text (some s)]⟩
    ∧ listSuppressionsTool (.ok r)
        = .ok ⟨[Content.text (some (stringifyVal 0 r))]⟩
    ∧ deleteSuppressionTool (.ok (Json.str s)) = .ok ⟨[Content.text (some s)]⟩
    ∧ deleteSuppressionTool (.ok r)
        = .ok ⟨[Content.text (some (stringifyVal 0 r))]⟩
    ∧ uploadFileTool (.ok w) = .ok ⟨[Content.text (some (stringifyVal 0 w))]⟩
    ∧ getScanLogsTool (.ok w) = .ok ⟨[Content.text (some (stringifyVal 0 w))]⟩
    ∧ getJsonReportTool (.ok w) = .ok ⟨[Content.text (some (stringifyVal 0 w))]⟩
    ∧ getRecentScansTool (.ok w) = .ok ⟨[Content.text (some (stringifyVal 0 w))]⟩
    ∧ searchScanResultTool (.ok w)
        = .ok ⟨[Content.text (some (stringifyVal 0 w))]⟩
    ∧ deleteScanTool (.ok w) = .ok ⟨[Content.text (some (stringifyVal 0 w))]⟩
    ∧ getScorecardTool (.ok w) = .ok ⟨[Content.text (some (stringifyVal 0 w))]⟩
    ∧ uploadFileTool (.ok (Json.str s))
        = .ok ⟨[Content.text (some (quoteString s))]⟩
    ∧ stringifyVal 0 (Json.str s)
        = "\"" ++ String.join (s.data.map escapeChar) ++ "\"" := by
  repeat' apply And.intro
  all_goals first
    | rfl
    | (cases r <;> simp_all [Json.isStr, viewSourceTool, suppressByRuleTool,
        suppressByFilesTool, listSuppressionsTool, deleteSuppressionTool])

/-- C10 witness: a null backend result (a non-string) is serialized by the
string-passthrough tools. -/
theorem c10_result_shaping_witness :
    viewSourceTool (.ok Json.null)
      = .ok ⟨[Content.text (some (stringifyVal 0 Json.null))]⟩ :=
  (c10_result_shaping "x" Json.null (Json.num 3) rfl).2.2.2.1

/-- Decoding inverts encoding on every sextet. -/
theorem charSextet_sextetChar (n : Nat) (h : n < 64) :
    charSextet (sextetChar n) = some n := by
  have hfin : ∀ m : Fin 64, charSextet (sextetChar m.val) = some m.val := by
    decide
  exact hfin ⟨n, h⟩

/-- No alphabet character is the padding character. -/
theorem sextetChar_ne_pad (n : Nat) (h : n < 64) : sextetChar n ≠ '=' := by
  have hfin : ∀ m : Fin 64, sextetChar m.val ≠ '=' := by decide
  exact hfin ⟨n, h⟩

/-- Base64 decoding inverts base64 encoding on every list of bytes, by
strong induction on a bound of the list length. -/
theorem base64DecodeChars_encodeChars (n : Nat) :
    ∀ l : List Nat, l.length ≤ n → (∀ b ∈ l, b < 256) →
      base64DecodeChars (base64EncodeChars l) = some l := by
  induction n with
  | zero =>
      intro l hl _
      have hnil : l = [] := List.eq_nil_of_length_eq_zero (Nat.le_zero.mp hl)
      subst hnil
      rfl
  | succ n ih =>
      intro l hl hb
      rcases l with _ | ⟨b0, _ | ⟨b1, _ | ⟨b2, rest⟩⟩⟩
      · rfl
      · have h0 : b0 < 256 := hb b0 (by simp)
        have e0 : b0 / 4 < 64 := by omega
        have e1 : b0 % 4 * 16 < 64 := by omega
        simp only [base64EncodeChars, base64DecodeChars,
          charSextet_sextetChar _ e0, charSextet_sextetChar _ e1]
        simp
        omega
      · have h0 : b0 < 256 := hb b0 (by simp)
        have h1 : b1 < 256 := hb b1 (by simp)
        have e0 : b0 / 4 < 64 := by omega
        have e1 : b0 % 4 * 16 + b1 / 16 < 64 := by omega
        have e2 : b1 % 16 * 4 < 64 := by omega
        have hne2 : sextetChar (b1 % 16 * 4) ≠ '=' := sextetChar_ne_pad _ e2
        simp only [base64EncodeChars, base64DecodeChars,
          charSextet_sextetChar _ e0, charSextet_sextetChar _ e1,
          charSextet_sextetChar _ e2]
        simp [hne2]
        omega
      · have h0 : b0 < 256 := hb b0 (by simp)
        have h1 : b1 < 256 := hb b1 (by simp)
        have h2 : b2 < 256 := hb b2 (by simp)
        have e0 : b0 / 4 < 64 := by omega
        have e1 : b0 % 4 * 16 + b1 / 16 < 64 := by omega
        have e2 : b1 % 16 * 4 + b2 / 64 < 64 := by omega
        have e3 : b2 % 64 < 64 := by omega
        have hne2 : sextetChar (b1 % 16 * 4 + b2 / 64) ≠ '=' :=
          sextetChar_ne_pad _ e2
        have hne3 : sextetChar (b2 % 64) ≠ '=' := sextetChar_ne_pad _ e3
        have hrest : base64DecodeChars (base64EncodeChars rest) = some rest := by
          refine ih rest ?_ ?_
          · simp only [List.length_cons] at hl
            omega
          · intro b hbm
            exact hb b (by simp [hbm])
        simp only [base64EncodeChars, base64DecodeChars,
          charSextet_sextetChar _ e0, charSextet_sextetChar _ e1,
          charSextet_sextetChar _ e2, charSextet_sextetChar _ e3, hrest]
        simp [hne2, hne3]
        omega

/-- Base64 round trip on strings: decoding the encoding of a byte list
recovers it. -/
theorem base64_decode_encode (l : List Nat) (h : ∀ b ∈ l, b < 256) :
    base64Decode (base64Encode l) = some l := by
  show base64DecodeChars (String.mk (base64EncodeChars l)).data = some l
  exact base64DecodeChars_encodeChars l.length l le_rfl h

/-- C6: for every hash, the generatePdfReport tool wraps a successful
backend result as a single binary resource whose blob is the base64
encoding of exactly the backend's raw bytes (so decoding the blob
recovers them), with MIME type application/pdf and a URI containing the
hash. -/
theorem c6_pdf_resource (pdfOf : String → Except JsErr (List Nat))
    (hash : String) (buffer : List Nat)
    (hres : pdfOf hash = .ok buffer)
    (hbytes : ∀ b ∈ buffer, b < 256) :
    generatePdfReportTool pdfOf hash
      = .ok ⟨[Content.resource ("mobsf_report_" ++ hash ++ ".pdf")
          (base64Encode buffer) "application/pdf"]⟩
    ∧ base64Decode (base64Encode buffer) = some buffer
    ∧ (∃ pre post, "mobsf_report_" ++ hash ++ ".pdf" = pre ++ hash ++ post) := by
  refine ⟨?_, base64_decode_encode buffer hbytes, "mobsf_report_", ".pdf", rfl⟩
  simp [generatePdfReportTool, hres]

/-- C6 witness: a concrete three-byte PDF body round trips through the
resource blob. -/
theorem c6_pdf_resource_witness :
    generatePdfReportTool (fun _ => .ok [37, 80, 68]) "abc"
      = .ok ⟨[Content.resource ("mobsf_report_" ++ "abc" ++ ".pdf")
          (base64Encode [37, 80, 68]) "application/pdf"]⟩
    ∧ base64Decode (base64Encode [37, 80, 68]) = some [37, 80, 68]
    ∧ (∃ pre post, "mobsf_report_" ++ "abc" ++ ".pdf" = pre ++ "abc" ++ post) :=
  c6_pdf_resource (fun _ => .ok [37, 80, 68]) "abc" [37, 80, 68] rfl
    (by decide)

/-- C7 witness: the stored base URL of a client built from a
slash-terminated URL is the argument with the trailing slash stripped. -/
theorem c7_auth_headers_and_urls_witness :
    (createMobSFClient "http://mobsf:8000/" "key").baseUrl
      = (if ("http://mobsf:8000/").endsWith "/"
          then ("http://mobsf:8000/").dropRight 1 else "http://mobsf:8000/") :=
  (c7_auth_headers_and_urls "http://mobsf:8000/" "key"
    (createMobSFClient "http://mobsf:8000/" "key") "f" "b" "h" "q" "fl" "t"
    "h1" "h2" "r" "k" 1 10).1

/-- C8 witness: a concrete upload request takes its content-type from the
multipart body constructor. -/
theorem c8_body_encodings_witness :
    hdrGet ((createMobSFClient "http://x" "k").uploadFileConfig
        "/tmp/app.apk" "XYZ").headers "content-type"
      = some ("multipart/form-data; boundary=" ++ "XYZ") :=
  (c8_body_encodings (createMobSFClient "http://x" "k") "/tmp/app.apk" "XYZ"
    "h" "q" "fl" "t" "h1" "h2" "r" "k2").1
